import Mathlib

/-!
Verification of the 3JS tile-streaming / locomotion demo.

Shallow embedding of the repository's three near-duplicate React/three.js
variants:

* `Part000` — `src/unnamed/part_000` (fixed `tileSize = 100`,
  `visibleRadius = 20`, guarded streaming, guarded Tab handler);
* `Part001` — `src/unnamed/part_001` (same streaming code as `Part000`,
  unguarded Tab handler);
* `AppJsx` — `src/src/App.jsx` (`tileSize = 10`, dynamic radius, unguarded
  per-frame streaming).

World positions are JavaScript doubles in the source; they are embedded as
exact rationals (`ℚ`), which keeps `Math.floor` and the exact comparisons
(`jumpY === 0`, `moveDX !== 0`) faithful.
Renderer handles (meshes) carry no data relevant to the claims, so the tile
cache is embedded as its key set (a `Finset (ℤ × ℤ)`; the source's string
key joining `x` and `z` with an underscore is injective on integer pairs)
together with an explicit event trace recording the create / scene-remove /
dispose calls a call performs.

The file is organised as definitions first, then theorems.
-/

/-- Tile coordinate: integer grid pair, the source's `(tileX, tileZ)`. -/
abbrev Coord : Type := ℤ × ℤ

/-- Floored tile coordinate of a world position, the render loops'
computation of `Math.floor(cameraX / tileSize)` per axis. -/
def tileCoord (tileSizeVal : ℚ) (pos : ℚ × ℚ) : Coord :=
  (⌊pos.1 / tileSizeVal⌋, ⌊pos.2 / tileSizeVal⌋)

/-- Event listeners removed by `cleanup` (part_000 lines 223-227). -/
inductive ListenerKind : Type
  | keydown
  | keyup
  | mousemove
  | resize
  | click
deriving DecidableEq, Repr

/-- Renderer-resource events emitted by the tile cache and the cleanup
function: tile creation (`createTile` ends in `scene.add(mesh)`),
`scene.remove(mesh)`, `mesh.geometry.dispose()`, `tileMaterial.dispose()`,
`texture.dispose()`, and the `removeEventListener` calls of `cleanup`. -/
inductive REvent : Type
  | createTile (k : Coord)
  | removeMesh (k : Coord)
  | disposeGeometry (k : Coord)
  | disposeMaterial
  | disposeTexture
  | removeListener (l : ListenerKind)
deriving DecidableEq, Repr

/-- Result of one `updateTiles` call: the new key set of the `tiles` map and
the trace of renderer calls performed.  The source iterates the map in
insertion order, but neither the spec nor the claims constrain the order of
per-tile calls, so the trace is a multiset. -/
structure UpdateResult : Type where
  cache : Finset Coord
  events : Multiset REvent
deriving DecidableEq

namespace Part000

/-- The constant `tileSize = 100` of part_000 (line 88). -/
def tileSize : ℚ := 100

/-- The constant `visibleRadius = 20` of part_000 (line 89). -/
def visibleRadius : ℤ := 20

/-- The needed set of `updateTiles` (part_000 lines 125-136): the double
loop over `i, j ∈ [-visibleRadius, visibleRadius]`, skipping pairs with
`i*i + j*j > visibleRadius*visibleRadius`, offset from the floored camera
tile coordinate `c`. -/
def needed (c : Coord) : Finset Coord :=
  ((Finset.Icc (-visibleRadius) visibleRadius ×ˢ
      Finset.Icc (-visibleRadius) visibleRadius).filter
    (fun ij => ij.1 * ij.1 + ij.2 * ij.2 ≤ visibleRadius * visibleRadius)).image
    (fun ij => (c.1 + ij.1, c.2 + ij.2))

/-- The function `updateTiles(cx, cz)` of part_000 (lines 120-145).  The
first loop inserts every needed key missing from `tiles` (one `createTile`,
ending in `scene.add`, for each); the second loop removes every mapped key
absent from the needed set
(`scene.remove(mesh); mesh.geometry.dispose(); tiles.delete(key)`).
The new key set is therefore `(tiles ∪ created) \ evicted`. -/
def updateTiles (tiles : Finset Coord) (cx cz : ℚ) : UpdateResult :=
  let c := tileCoord tileSize (cx, cz)
  let nd := needed c
  let created := nd \ tiles
  let evicted := tiles \ nd
  { cache := (tiles ∪ created) \ evicted
    events :=
      created.val.map REvent.createTile +
      evicted.val.bind (fun k => {REvent.removeMesh k, REvent.disposeGeometry k}) }

/-- The keys evicted by `updateTiles tiles cx cz`: mapped keys outside the
new needed set. -/
def evictedKeys (tiles : Finset Coord) (cx cz : ℚ) : Finset Coord :=
  tiles \ needed (tileCoord tileSize (cx, cz))

/-- The function `cleanup()` of part_000 (lines 222-230): removes the five
listeners, then `tileMaterial.dispose(); texture.dispose();`. -/
def cleanupEvents : List REvent :=
  [REvent.removeListener ListenerKind.keydown,
   REvent.removeListener ListenerKind.keyup,
   REvent.removeListener ListenerKind.mousemove,
   REvent.removeListener ListenerKind.resize,
   REvent.removeListener ListenerKind.click,
   REvent.disposeMaterial, REvent.disposeTexture]

/-- Events of a whole run of `updateTiles` calls: each call is applied to
the cache left by the previous one and its trace is accumulated. -/
def runEvents (tiles : Finset Coord) : List (ℚ × ℚ) → Multiset REvent
  | [] => 0
  | p :: ps =>
      (updateTiles tiles p.1 p.2).events +
        runEvents (updateTiles tiles p.1 p.2).cache ps

end Part000

namespace AppJsx

/-- The constant `tileSize = 10` of App.jsx (line 41). -/
def tileSize : ℚ := 10

/-- The per-candidate tile coordinate of `updateTiles` (App.jsx lines
103-104): `tx = Math.floor((cx + dx*tileSize)/tileSize)` and likewise for
`tz`. -/
def tileOf (cx cz : ℚ) (d : ℤ × ℤ) : Coord :=
  (⌊(cx + d.1 * tileSize) / tileSize⌋, ⌊(cz + d.2 * tileSize) / tileSize⌋)

/-- The needed set of `updateTiles` (App.jsx lines 100-116): candidates
`dx, dz ∈ [-visibleRadius, visibleRadius]`, each mapped to `tileOf`, kept
iff the world-space distance from `(tx*tileSize, tz*tileSize)` to `(cx,cz)`
is at most `visibleRadius * tileSize`.  The source compares the square root
of the squared distance against `R*tileSize`; both sides are nonnegative,
so the embedding compares the squares. -/
def needed (R : ℤ) (cx cz : ℚ) : Finset Coord :=
  ((Finset.Icc (-R) R ×ˢ Finset.Icc (-R) R).filter
    (fun d =>
      ((tileOf cx cz d).1 * tileSize - cx) ^ 2 +
        ((tileOf cx cz d).2 * tileSize - cz) ^ 2 ≤ (R * tileSize) ^ 2)).image
    (tileOf cx cz)

/-- The function `updateTiles(cx, cz)` of App.jsx (lines 99-126).
`visibleRadius` is a mutable variable recomputed by `render` each frame, so
it is a parameter here.  Same insert-missing / remove-stale structure as in
part_000. -/
def updateTiles (R : ℤ) (tiles : Finset Coord) (cx cz : ℚ) : Finset Coord :=
  let nd := needed R cx cz
  (tiles ∪ (nd \ tiles)) \ (tiles \ nd)

/-- One frame of the App.jsx `render` loop's streaming part (line 276):
`updateTiles(cameraX, cameraZ)` is executed unconditionally, so the
"invoked" flag of a frame is always `true`. -/
def frame (R : ℤ) (cache : Finset Coord) (pos : ℚ × ℚ) : Finset Coord × Bool :=
  (updateTiles R cache pos.1 pos.2, true)

end AppJsx

/-- Vertical jump state of the locomotion controller: the mutable variables
`jumpY`, `jumpVelocity`, `isJumping` of the source. -/
structure JumpState : Type where
  jumpY : ℚ
  jumpVelocity : ℚ
  isJumping : Bool
deriving DecidableEq, Repr

/-- The jump-trigger block of `render` (part_000 lines 270-273):
`if (keys.space && !isJumping && jumpY === 0) { jumpVelocity = jumpStrength;
isJumping = true; }`. -/
def jumpTrigger (jumpStrengthVal : ℚ) (space : Bool) (st : JumpState) : JumpState :=
  if space = true ∧ st.isJumping = false ∧ st.jumpY = 0 then
    { st with jumpVelocity := jumpStrengthVal, isJumping := true }
  else st

/-- The jump-integration block of `render` (part_000 lines 274-282):
`jumpY += jumpVelocity; jumpVelocity -= gravity;
if (jumpY <= 0) { jumpY = 0; jumpVelocity = 0; isJumping = false; }`. -/
def jumpIntegrate (gravityVal : ℚ) (st : JumpState) : JumpState :=
  if st.isJumping = true then
    if st.jumpY + st.jumpVelocity ≤ 0 then ⟨0, 0, false⟩
    else ⟨st.jumpY + st.jumpVelocity, st.jumpVelocity - gravityVal, true⟩
  else st

/-- One render tick of the jump physics: trigger check, then integration,
exactly the statement order of the source. -/
def jumpTick (s g : ℚ) (space : Bool) (st : JumpState) : JumpState :=
  jumpIntegrate g (jumpTrigger s space st)

/-- Iteration of further render ticks with the jump key released. -/
def jumpIter (s g : ℚ) : ℕ → JumpState → JumpState
  | 0, st => st
  | n + 1, st => jumpTick s g false (jumpIter s g n st)

/-- Closed form of the height after `m` unclamped integration steps:
`m·s - g·m·(m-1)/2`. -/
def jumpHeightAt (s g : ℚ) (m : ℕ) : ℚ :=
  (m : ℚ) * s - g * ((m : ℚ) * ((m : ℚ) - 1)) / 2

/-- Closed form of the velocity after `m` unclamped integration steps. -/
def jumpVelAt (s g : ℚ) (m : ℕ) : ℚ := s - (m : ℚ) * g

/-- The constant `jumpStrength = 3.5` of part_000 (line 154). -/
def Part000.jumpStrength : ℚ := 3.5

/-- The constant `gravity = 0.1` of part_000 (line 155). -/
def Part000.gravity : ℚ := 0.1

/-- The part_000 jump state after `n` render ticks, where the jump key is
pressed on the first tick (from the grounded initial state) and released
afterwards. -/
def Part000.jumpAfter : ℕ → JumpState
  | 0 => ⟨0, 0, false⟩
  | n + 1 =>
      jumpIter Part000.jumpStrength Part000.gravity n
        (jumpTick Part000.jumpStrength Part000.gravity true ⟨0, 0, false⟩)

/-- Held-key state, the `keys` object of part_000 (line 150). -/
structure Keys : Type where
  w : Bool
  a : Bool
  s : Bool
  d : Bool
  space : Bool
  shift : Bool
deriving DecidableEq, Repr

/-- The raw displacement accumulation of `render` (part_000 lines 239-261),
in the source's branch order `s, w, d, a`.  There the basis vectors are
`forward = (sin yaw, cos yaw)` and `right = (sin(yaw+π/2), cos(yaw+π/2))`;
the accumulation — and the cancellation claim about it — is independent of
their values, so they are parameters, which quantifies over every yaw. -/
def rawMove (k : Keys) (fwd rgt : ℚ × ℚ) : ℚ × ℚ :=
  let m0 : ℚ × ℚ := (0, 0)
  let m1 := if k.s then (m0.1 - fwd.1, m0.2 - fwd.2) else m0
  let m2 := if k.w then (m1.1 + fwd.1, m1.2 + fwd.2) else m1
  let m3 := if k.d then (m2.1 - rgt.1, m2.2 - rgt.2) else m2
  if k.a then (m3.1 + rgt.1, m3.2 + rgt.2) else m3

/-- The position update of `render` (part_000 lines 263-268): when the raw
vector is nonzero, move by the normalized vector times the current speed;
otherwise leave the position untouched.  The source's normalizer divides by
the square root of the squared norm; nothing here depends on its value, so
it is a parameter. -/
def movementTick (norm : ℚ × ℚ → ℚ × ℚ) (speed : ℚ) (k : Keys)
    (fwd rgt pos : ℚ × ℚ) : ℚ × ℚ :=
  let m := rawMove k fwd rgt
  if m ≠ (0, 0) then (pos.1 + (norm m).1 * speed, pos.2 + (norm m).2 * speed)
  else pos

/-- FPS look state: the `yaw` and `pitch` variables of part_000 (191-192). -/
structure LookState : Type where
  yaw : ℚ
  pitch : ℚ
deriving DecidableEq, Repr

/-- The handler `onMouseMove(e)` of part_000 (lines 195-201): if pointer
lock is not on the canvas the handler returns immediately; otherwise
`yaw -= dx*sensitivity; pitch -= dy*sensitivity;
pitch = Math.max(-pitchLimit, Math.min(pitchLimit, pitch))`.  The source's
`pitchLimit = π/2 - 0.1` is irrational and `sensitivity = 0.0075`; the
handler's properties hold for any `0 ≤ pitchLimit` and any sensitivity, so
both are parameters. -/
def onMouseMove (pitchLimitVal sensitivity : ℚ) (captured : Bool)
    (st : LookState) (dx dy : ℚ) : LookState :=
  if captured = false then st
  else
    { yaw := st.yaw - dx * sensitivity
      pitch :=
        max (-pitchLimitVal) (min pitchLimitVal (st.pitch - dy * sensitivity)) }

/-- The handler `onFPSMouseMove(e)` of App.jsx (lines 185-190): the same
update body as the part_000 handler but with no pointer-lock guard — it
runs on every mousemove whatever `document.pointerLockElement` is, so the
`captured` flag of the environment is ignored (App.jsx merely re-requests
the lock elsewhere). -/
def AppJsx.onFPSMouseMove (pitchLimitVal sensitivity : ℚ) (captured : Bool)
    (st : LookState) (dx dy : ℚ) : LookState :=
  { yaw := st.yaw - dx * sensitivity
    pitch :=
      max (-pitchLimitVal) (min pitchLimitVal (st.pitch - dy * sensitivity)) }

/-- Streaming-relevant state of part_000's render loop: the tracked
`lastCameraTileX/Z` pair — initialized to `-Infinity` (lines 232-233),
which compares unequal to every real tile coordinate, embedded as
`Option.none` — and the tile cache. -/
structure FrameSt : Type where
  lastTile : Option Coord
  cache : Finset Coord
deriving DecidableEq

/-- The streaming block of one `render` frame (part_000 lines 325-331):
recompute the floored camera tile coordinate; if either component differs
from the tracked pair, call `updateTiles` and record the coordinate.  The
returned flag reports whether `updateTiles` was invoked this frame. -/
def Part000.frame (st : FrameSt) (pos : ℚ × ℚ) : FrameSt × Bool :=
  if some (tileCoord Part000.tileSize pos) ≠ st.lastTile then
    (⟨some (tileCoord Part000.tileSize pos),
      (Part000.updateTiles st.cache pos.1 pos.2).cache⟩, true)
  else (st, false)

/-- Startup of part_000 (lines 232-233, 337): `lastCameraTileX/Z`
uninitialized (`-Infinity`) and one unconditional `updateTiles(0, 0)` call
that does not record the coordinate. -/
def Part000.startupState : FrameSt :=
  ⟨none, (Part000.updateTiles ∅ 0 0).cache⟩

/-- Character-model scene state touched by the Tab handler: visibility and
shadow flag of the model root, and visibility of the first-person-only
sub-meshes (the two named objects under the named root object). -/
structure CharModel : Type where
  visible : Bool
  castShadow : Bool
  partsVisible : Bool
deriving DecidableEq, Repr

/-- The Tab branch of part_000's `handleKeyDown` (lines 165-180): flip
`isThirdPerson` and only then, guarded by `if (characterModel)`, update the
sub-mesh visibility and the model's visibility/shadow flags.  The model is
`none` until the asynchronous GLTF load callback assigns it. -/
def Part000.tabHandler (model : Option CharModel) (isThirdPerson : Bool) :
    Bool × Option CharModel :=
  match model with
  | none => (!isThirdPerson, none)
  | some m =>
      (!isThirdPerson,
        some { m with
          partsVisible := !isThirdPerson
          visible := !isThirdPerson
          castShadow := !isThirdPerson })

/-- Outcome of part_001's Tab branch: the new flag, the possibly updated
model, and whether the handler threw. -/
structure TabResult : Type where
  isThirdPerson : Bool
  model : Option CharModel
  faulted : Bool
deriving DecidableEq, Repr

/-- The Tab branch of part_001's `handleKeyDown` (lines 165-169): the flag
flips first, then `characterModel.visible = isThirdPerson` runs with no
guard — when the GLTF load has not completed (`characterModel` is
`undefined`) that statement throws a `TypeError`, recorded as `faulted`. -/
def Part001.tabHandler (model : Option CharModel) (isThirdPerson : Bool) :
    TabResult :=
  match model with
  | none => ⟨!isThirdPerson, none, true⟩
  | some m => ⟨!isThirdPerson, some { m with visible := !isThirdPerson }, false⟩

/-- Membership in a centered disc image: helper characterising the
`Part000.needed` loop as the Euclidean disc of the claim. -/
theorem Part000.mem_needed (c : Coord) (p : Coord) :
    p ∈ Part000.needed c ↔
      (p.1 - c.1) * (p.1 - c.1) + (p.2 - c.2) * (p.2 - c.2) ≤
        Part000.visibleRadius * Part000.visibleRadius := by
  constructor
  · rintro h
    simp only [Part000.needed, Finset.mem_image, Finset.mem_filter,
      Finset.mem_product, Finset.mem_Icc] at h
    obtain ⟨ij, ⟨⟨_, _⟩, hle⟩, rfl⟩ := h
    simpa using hle
  · intro h
    have h' : (p.1 - c.1) * (p.1 - c.1) + (p.2 - c.2) * (p.2 - c.2) ≤ 400 := by
      simpa [Part000.visibleRadius] using h
    simp only [Part000.needed, Finset.mem_image, Finset.mem_filter,
      Finset.mem_product, Finset.mem_Icc]
    refine ⟨(p.1 - c.1, p.2 - c.2), ⟨⟨⟨?_, ?_⟩, ⟨?_, ?_⟩⟩, ?_⟩, ?_⟩
    · show (-Part000.visibleRadius : ℤ) ≤ p.1 - c.1
      show (-20 : ℤ) ≤ p.1 - c.1
      nlinarith [mul_self_nonneg (p.2 - c.2), mul_self_nonneg (p.1 - c.1 + 20)]
    · show (p.1 - c.1 : ℤ) ≤ Part000.visibleRadius
      show (p.1 - c.1 : ℤ) ≤ 20
      nlinarith [mul_self_nonneg (p.2 - c.2), mul_self_nonneg (p.1 - c.1 - 20)]
    · show (-Part000.visibleRadius : ℤ) ≤ p.2 - c.2
      show (-20 : ℤ) ≤ p.2 - c.2
      nlinarith [mul_self_nonneg (p.1 - c.1), mul_self_nonneg (p.2 - c.2 + 20)]
    · show (p.2 - c.2 : ℤ) ≤ Part000.visibleRadius
      show (p.2 - c.2 : ℤ) ≤ 20
      nlinarith [mul_self_nonneg (p.1 - c.1), mul_self_nonneg (p.2 - c.2 - 20)]
    · simpa using h
    · simp

/-- The cache after `Part000.updateTiles` is exactly the needed set,
whatever the cache held before. -/
theorem Part000.cache_eq_needed (tiles : Finset Coord) (cx cz : ℚ) :
    (Part000.updateTiles tiles cx cz).cache =
      Part000.needed (tileCoord Part000.tileSize (cx, cz)) := by
  ext p
  by_cases hn : p ∈ Part000.needed (tileCoord Part000.tileSize (cx, cz)) <;>
    by_cases ht : p ∈ tiles <;>
      simp [Part000.updateTiles, hn, ht]

/-- Claim C1, amended: for every prior cache and every viewpoint position,
a call to the part_000/part_001 `updateTiles` leaves the key set exactly
equal to the disc of coordinates `(x,z)` satisfying
`(x-cx)² + (z-cz)² ≤ R²` with `(cx,cz)` the floored position over
`tileSize` and `R = visibleRadius` — no extra keys and no missing keys.
The App.jsx variant violates this; see its counterexample. -/
theorem c1_keyset_part000 (tiles : Finset Coord) (cx cz : ℚ) (p : Coord) :
    p ∈ (Part000.updateTiles tiles cx cz).cache ↔
      (p.1 - ⌊cx / Part000.tileSize⌋) * (p.1 - ⌊cx / Part000.tileSize⌋) +
          (p.2 - ⌊cz / Part000.tileSize⌋) * (p.2 - ⌊cz / Part000.tileSize⌋) ≤
        Part000.visibleRadius * Part000.visibleRadius := by
  rw [Part000.cache_eq_needed]
  exact Part000.mem_needed (tileCoord Part000.tileSize (cx, cz)) p

/-- Claim C1, counterexample: in the App.jsx variant (with its initial
`visibleRadius = 6`), after `updateTiles` at viewpoint `(5, 5)` the cache
contains the key `(6, 2)`, which lies outside the claimed disc around the
floored center `(0, 0)` — since `6² + 2² = 40 > 36` — so the key set is not
the claimed set. -/
theorem c1_appjsx_counterexample :
    (6, 2) ∈ AppJsx.updateTiles 6 ∅ 5 5 ∧
      ¬ (((6 : ℤ) - ⌊(5 : ℚ) / AppJsx.tileSize⌋) *
            ((6 : ℤ) - ⌊(5 : ℚ) / AppJsx.tileSize⌋) +
          ((2 : ℤ) - ⌊(5 : ℚ) / AppJsx.tileSize⌋) *
            ((2 : ℤ) - ⌊(5 : ℚ) / AppJsx.tileSize⌋) ≤ 6 * 6) := by
  have h62 : AppJsx.tileOf 5 5 (6, 2) = (6, 2) := by
    unfold AppJsx.tileOf AppJsx.tileSize
    norm_num
  constructor
  · simp only [AppJsx.updateTiles, Finset.empty_sdiff, Finset.sdiff_empty,
      Finset.empty_union]
    rw [AppJsx.needed, Finset.mem_image]
    refine ⟨(6, 2), ?_, h62⟩
    rw [Finset.mem_filter]
    refine ⟨?_, ?_⟩
    · rw [Finset.mem_product]
      constructor <;> · rw [Finset.mem_Icc]; norm_num
    · rw [h62]
      unfold AppJsx.tileSize
      norm_num
  · norm_num [AppJsx.tileSize]

/-- Claim C3: calling the part_000 `updateTiles` twice in a row with the
same viewpoint position leaves the cache unchanged, and the second call
performs no renderer calls at all — in particular zero tile creations and
zero scene-removal / dispose calls. -/
theorem c3_idempotent (tiles : Finset Coord) (cx cz : ℚ) :
    (Part000.updateTiles (Part000.updateTiles tiles cx cz).cache cx cz).cache =
        (Part000.updateTiles tiles cx cz).cache ∧
      (Part000.updateTiles (Part000.updateTiles tiles cx cz).cache cx cz).events = 0 := by
  have h := Part000.cache_eq_needed tiles cx cz
  constructor
  · rw [Part000.cache_eq_needed tiles cx cz,
      Part000.cache_eq_needed (Part000.needed (tileCoord Part000.tileSize (cx, cz))) cx cz]
  · rw [h]
    simp [Part000.updateTiles]

theorem jumpHeightAt_succ (s g : ℚ) (m : ℕ) :
    jumpHeightAt s g (m + 1) = jumpHeightAt s g m + jumpVelAt s g m := by
  unfold jumpHeightAt jumpVelAt
  push_cast
  ring

theorem jumpVelAt_succ (s g : ℚ) (m : ℕ) :
    jumpVelAt s g (m + 1) = jumpVelAt s g m - g := by
  unfold jumpVelAt
  push_cast
  ring

theorem jumpHeightAt_one (s g : ℚ) : jumpHeightAt s g 1 = s := by
  unfold jumpHeightAt
  push_cast
  ring

theorem jumpVelAt_one (s g : ℚ) : jumpVelAt s g 1 = s - g := by
  unfold jumpVelAt
  push_cast
  ring

/-- A grounded state with the jump key released is a fixed point of the
tick. -/
theorem jumpTick_ground (s g : ℚ) : jumpTick s g false ⟨0, 0, false⟩ = ⟨0, 0, false⟩ := by
  unfold jumpTick jumpTrigger jumpIntegrate
  simp

/-- The triggering tick from a grounded state: the trigger sets
`jumpVelocity = s` and the flag, and the same tick already integrates one
step. -/
theorem jumpTick_start (s g : ℚ) (hs : 0 < s) :
    jumpTick s g true ⟨0, 0, false⟩ = ⟨s, s - g, true⟩ := by
  unfold jumpTick jumpTrigger jumpIntegrate
  simp [hs.not_le]

/-- A tick from an airborne state with the jump key released. -/
theorem jumpTick_air (s g y v : ℚ) :
    jumpTick s g false ⟨y, v, true⟩ =
      if y + v ≤ 0 then ⟨0, 0, false⟩ else ⟨y + v, v - g, true⟩ := by
  unfold jumpTick jumpTrigger jumpIntegrate
  simp

/-- While the closed-form heights stay positive, the iterated state is the
airborne state given by the closed forms. -/
theorem jump_airborne (s g : ℚ) : ∀ k : ℕ,
    (∀ j : ℕ, 1 ≤ j → j ≤ k + 1 → 0 < jumpHeightAt s g j) →
    jumpIter s g k (jumpTick s g true ⟨0, 0, false⟩) =
      ⟨jumpHeightAt s g (k + 1), jumpVelAt s g (k + 1), true⟩ := by
  intro k
  induction k with
  | zero =>
    intro h
    have h1 : 0 < jumpHeightAt s g 1 := h 1 le_rfl le_rfl
    rw [jumpHeightAt_one] at h1
    show jumpTick s g true ⟨0, 0, false⟩ = _
    rw [jumpTick_start s g h1, jumpHeightAt_one, jumpVelAt_one]
  | succ k ih =>
    intro h
    have hk := ih (fun j h1 h2 => h j h1 (by omega))
    show jumpTick s g false (jumpIter s g k (jumpTick s g true ⟨0, 0, false⟩)) = _
    rw [hk, jumpTick_air]
    have hpos : 0 < jumpHeightAt s g (k + 1) + jumpVelAt s g (k + 1) := by
      rw [← jumpHeightAt_succ s g (k + 1)]
      exact h (k + 1 + 1) (by omega) (by omega)
    rw [if_neg hpos.not_le, jumpHeightAt_succ s g (k + 1), jumpVelAt_succ s g (k + 1)]

/-- Every state reachable from the triggered start is either the grounded
fixed point or the airborne closed-form state with positive height. -/
theorem jump_disj (s g : ℚ) (hs : 0 < s) : ∀ k : ℕ,
    jumpIter s g k (jumpTick s g true ⟨0, 0, false⟩) = ⟨0, 0, false⟩ ∨
      (jumpIter s g k (jumpTick s g true ⟨0, 0, false⟩) =
          ⟨jumpHeightAt s g (k + 1), jumpVelAt s g (k + 1), true⟩ ∧
        0 < jumpHeightAt s g (k + 1)) := by
  intro k
  induction k with
  | zero =>
    right
    refine ⟨?_, ?_⟩
    · show jumpTick s g true ⟨0, 0, false⟩ = _
      rw [jumpTick_start s g hs, jumpHeightAt_one, jumpVelAt_one]
    · rw [jumpHeightAt_one]; exact hs
  | succ k ih =>
    rcases ih with h | ⟨h, _⟩
    · left
      show jumpTick s g false (jumpIter s g k (jumpTick s g true ⟨0, 0, false⟩)) = _
      rw [h, jumpTick_ground]
    · have hstep : jumpIter s g (k + 1) (jumpTick s g true ⟨0, 0, false⟩) =
          jumpTick s g false (jumpIter s g k (jumpTick s g true ⟨0, 0, false⟩)) := rfl
      rw [hstep, h, jumpTick_air]
      by_cases hle : jumpHeightAt s g (k + 1) + jumpVelAt s g (k + 1) ≤ 0
      · left; rw [if_pos hle]
      · right
        refine ⟨?_, ?_⟩
        · rw [if_neg hle, jumpHeightAt_succ s g (k + 1), jumpVelAt_succ s g (k + 1)]
        · rw [jumpHeightAt_succ s g (k + 1)]
          exact lt_of_not_le hle

/-- With `jumpStrength = 3.5` and `gravity = 0.1` the closed-form height is
strictly positive at every step `1 ≤ j ≤ 70`. -/
theorem Part000.jumpHeight_pos :
    ∀ j : ℕ, 1 ≤ j → j ≤ 70 →
      0 < jumpHeightAt Part000.jumpStrength Part000.gravity j := by
  intro j h1 h70
  have hj1 : (1 : ℚ) ≤ (j : ℚ) := by exact_mod_cast h1
  have hj70 : (j : ℚ) ≤ 70 := by exact_mod_cast h70
  unfold jumpHeightAt Part000.jumpStrength Part000.gravity
  nlinarith [mul_le_mul_of_nonneg_left (show (j : ℚ) - 1 ≤ 69 by linarith)
    (show (0 : ℚ) ≤ (j : ℚ) by linarith)]

/-- Claim C2, counterexample: with `jumpStrength = 3.5` and
`gravity = 0.1`, the ceiling of `2·jumpStrength/gravity` is 70, not the 35
the spec states; and the discrete integration has `jumpHeight ≠ 0` both
after 35 ticks and after 70 ticks, so the claimed tick count is wrong under
either reading. -/
theorem c2_counterexample :
    ⌈2 * Part000.jumpStrength / Part000.gravity⌉ = 70 ∧
      (Part000.jumpAfter 35).jumpY ≠ 0 ∧ (Part000.jumpAfter 70).jumpY ≠ 0 := by
  refine ⟨?_, ?_, ?_⟩
  · norm_num [Part000.jumpStrength, Part000.gravity]
  · show (jumpIter Part000.jumpStrength Part000.gravity 34
        (jumpTick Part000.jumpStrength Part000.gravity true ⟨0, 0, false⟩)).jumpY ≠ 0
    rw [jump_airborne Part000.jumpStrength Part000.gravity 34
      (fun j hj1 hj2 => Part000.jumpHeight_pos j hj1 (by omega))]
    exact (Part000.jumpHeight_pos 35 (by omega) (by omega)).ne'
  · show (jumpIter Part000.jumpStrength Part000.gravity 69
        (jumpTick Part000.jumpStrength Part000.gravity true ⟨0, 0, false⟩)).jumpY ≠ 0
    rw [jump_airborne Part000.jumpStrength Part000.gravity 69
      (fun j hj1 hj2 => Part000.jumpHeight_pos j hj1 (by omega))]
    exact (Part000.jumpHeight_pos 70 (by omega) (by omega)).ne'

/-- Claim C2, amended: with `jumpStrength = 3.5` and `gravity = 0.1`, the
discrete jump integration of part_000 brings `jumpHeight` back to exactly 0
(with velocity zeroed and the flag cleared) after exactly 71 ticks — that
is `2·jumpStrength/gravity + 1` — deterministically: the height is nonzero
on every earlier tick. -/
theorem c2_jump_returns_after_71_ticks :
    Part000.jumpAfter 71 = ⟨0, 0, false⟩ ∧
      ∀ n : ℕ, 1 ≤ n → n ≤ 70 → (Part000.jumpAfter n).jumpY ≠ 0 := by
  constructor
  · show jumpIter Part000.jumpStrength Part000.gravity 70
      (jumpTick Part000.jumpStrength Part000.gravity true ⟨0, 0, false⟩) = _
    have h69 := jump_airborne Part000.jumpStrength Part000.gravity 69
      (fun j hj1 hj2 => Part000.jumpHeight_pos j hj1 (by omega))
    have hstep : jumpIter Part000.jumpStrength Part000.gravity 70
        (jumpTick Part000.jumpStrength Part000.gravity true ⟨0, 0, false⟩) =
        jumpTick Part000.jumpStrength Part000.gravity false
          (jumpIter Part000.jumpStrength Part000.gravity 69
            (jumpTick Part000.jumpStrength Part000.gravity true ⟨0, 0, false⟩)) := rfl
    rw [hstep, h69, jumpTick_air]
    have hsum : jumpHeightAt Part000.jumpStrength Part000.gravity 70 +
        jumpVelAt Part000.jumpStrength Part000.gravity 70 = 0 := by
      unfold jumpHeightAt jumpVelAt Part000.jumpStrength Part000.gravity
      norm_num
    rw [if_pos hsum.le]
  · intro n h1 h70
    obtain ⟨k, rfl⟩ : ∃ k, n = k + 1 := ⟨n - 1, by omega⟩
    show (jumpIter Part000.jumpStrength Part000.gravity k
        (jumpTick Part000.jumpStrength Part000.gravity true ⟨0, 0, false⟩)).jumpY ≠ 0
    rw [jump_airborne Part000.jumpStrength Part000.gravity k
      (fun j hj1 hj2 => Part000.jumpHeight_pos j hj1 (by omega))]
    exact (Part000.jumpHeight_pos (k + 1) (by omega) (by omega)).ne'

/-- Witness for the amended C2 statement at the concrete tick 35. -/
theorem c2_witness :
    (1 : ℕ) ≤ 35 ∧ (35 : ℕ) ≤ 70 ∧ (Part000.jumpAfter 35).jumpY ≠ 0 :=
  ⟨by decide, by decide, c2_jump_returns_after_71_ticks.2 35 (by decide) (by decide)⟩

/-- A released jump key never changes the state in the trigger block. -/
theorem jumpTrigger_false (s : ℚ) (st : JumpState) : jumpTrigger s false st = st := by
  unfold jumpTrigger
  rw [if_neg]
  rintro ⟨h, -, -⟩
  exact Bool.noConfusion h

/-- Claim C5: for every positive `jumpStrength` and `gravity`, starting
grounded: the trigger sets `jumpVelocity = jumpStrength` and the jumping
flag; some finite number of ticks later the state is exactly
height 0, velocity 0, flag cleared; whenever the height is 0 again the
whole state is that grounded state; and while airborne a held jump key has
no effect (no re-entrant jump). -/
theorem c5_jump_round_trip (s g : ℚ) (hs : 0 < s) (hg : 0 < g) :
    jumpTrigger s true ⟨0, 0, false⟩ = ⟨0, s, true⟩ ∧
      (∃ N : ℕ, jumpIter s g N (jumpTick s g true ⟨0, 0, false⟩) = ⟨0, 0, false⟩) ∧
      (∀ n : ℕ, (jumpIter s g n (jumpTick s g true ⟨0, 0, false⟩)).jumpY = 0 →
        jumpIter s g n (jumpTick s g true ⟨0, 0, false⟩) = ⟨0, 0, false⟩) ∧
      ∀ st : JumpState, st.isJumping = true →
        jumpTrigger s true st = st ∧ jumpTick s g true st = jumpTick s g false st := by
  refine ⟨?_, ?_, ?_, ?_⟩
  · unfold jumpTrigger
    rw [if_pos ⟨rfl, rfl, rfl⟩]
  · have hle : (2 * s / g : ℚ) ≤ (⌈2 * s / g⌉₊ : ℚ) := Nat.le_ceil _
    have h2s : 2 * s ≤ g * (⌈2 * s / g⌉₊ : ℚ) := by
      rw [div_le_iff₀ hg] at hle
      linarith
    have hH : jumpHeightAt s g (⌈2 * s / g⌉₊ + 1) ≤ 0 := by
      unfold jumpHeightAt
      have hc : (0 : ℚ) ≤ (⌈2 * s / g⌉₊ : ℚ) := Nat.cast_nonneg _
      push_cast
      nlinarith [mul_nonneg (show (0 : ℚ) ≤ (⌈2 * s / g⌉₊ : ℚ) + 1 by linarith)
        (show (0 : ℚ) ≤ g * (⌈2 * s / g⌉₊ : ℚ) - 2 * s by linarith)]
    rcases jump_disj s g hs ⌈2 * s / g⌉₊ with h | ⟨_, hpos⟩
    · exact ⟨⌈2 * s / g⌉₊, h⟩
    · exact absurd hpos hH.not_lt
  · intro n hy
    rcases jump_disj s g hs n with h | ⟨h, hpos⟩
    · exact h
    · rw [h] at hy
      exact absurd hy hpos.ne'
  · intro st hj
    have ht : jumpTrigger s true st = st := by
      unfold jumpTrigger
      rw [if_neg]
      rintro ⟨-, h2, -⟩
      rw [hj] at h2
      exact Bool.noConfusion h2
    refine ⟨ht, ?_⟩
    unfold jumpTick
    rw [ht, jumpTrigger_false]

/-- Witness for C5 at `jumpStrength = 1`, `gravity = 1`. -/
theorem c5_witness :
    (0 : ℚ) < 1 ∧
      (jumpTrigger 1 true ⟨0, 0, false⟩ = ⟨0, 1, true⟩ ∧
        (∃ N : ℕ, jumpIter 1 1 N (jumpTick 1 1 true ⟨0, 0, false⟩) = ⟨0, 0, false⟩) ∧
        (∀ n : ℕ, (jumpIter 1 1 n (jumpTick 1 1 true ⟨0, 0, false⟩)).jumpY = 0 →
          jumpIter 1 1 n (jumpTick 1 1 true ⟨0, 0, false⟩) = ⟨0, 0, false⟩) ∧
        ∀ st : JumpState, st.isJumping = true →
          jumpTrigger 1 true st = st ∧ jumpTick 1 1 true st = jumpTick 1 1 false st) :=
  ⟨one_pos, c5_jump_round_trip 1 1 one_pos one_pos⟩

/-- Claim C6: whenever the forward and back keys are held alike and the
left and right keys are held alike — in particular the two opposed pairs
together, or all four — the accumulated raw displacement of the tick is
exactly `(0, 0)` and the position is unchanged, for every yaw basis, every
normalizer and every speed. -/
theorem c6_opposing_keys_cancel (k : Keys) (fwd rgt : ℚ × ℚ)
    (norm : ℚ × ℚ → ℚ × ℚ) (speed : ℚ) (pos : ℚ × ℚ)
    (hws : k.w = k.s) (had : k.a = k.d) :
    rawMove k fwd rgt = (0, 0) ∧ movementTick norm speed k fwd rgt pos = pos := by
  have h0 : rawMove k fwd rgt = (0, 0) := by
    unfold rawMove
    rw [← hws, ← had]
    cases hw : k.w <;> cases ha : k.a <;> simp
  refine ⟨h0, ?_⟩
  unfold movementTick
  rw [h0]
  simp

/-- Witness for C6: forward and back held together with basis
`(1,0)`/`(0,1)`, identity normalizer, the source's `moveSpeed`, position
`(3,4)`. -/
theorem c6_witness :
    (⟨true, false, true, false, false, false⟩ : Keys).w =
        (⟨true, false, true, false, false, false⟩ : Keys).s ∧
      (⟨true, false, true, false, false, false⟩ : Keys).a =
        (⟨true, false, true, false, false, false⟩ : Keys).d ∧
      rawMove ⟨true, false, true, false, false, false⟩ (1, 0) (0, 1) = (0, 0) ∧
      movementTick id 2.5 ⟨true, false, true, false, false, false⟩ (1, 0) (0, 1)
        (3, 4) = (3, 4) := by
  refine ⟨rfl, rfl, ?_⟩
  exact c6_opposing_keys_cancel ⟨true, false, true, false, false, false⟩
    (1, 0) (0, 1) id 2.5 (3, 4) rfl rfl

/-- One captured mouse-move always leaves the pitch inside the inclusive
clamp interval, whatever the incoming state and delta. -/
theorem onMouseMove_pitch_mem (L sens : ℚ) (hL : 0 ≤ L) (st : LookState)
    (dx dy : ℚ) :
    -L ≤ (onMouseMove L sens true st dx dy).pitch ∧
      (onMouseMove L sens true st dx dy).pitch ≤ L := by
  unfold onMouseMove
  simp only [Bool.true_eq_false, if_false]
  exact ⟨le_max_left _ _, max_le (neg_le_self hL) (min_le_left _ _)⟩

/-- Folding any list of captured mouse-moves keeps an in-range pitch
in range. -/
theorem lookFold_pitch (L sens : ℚ) (hL : 0 ≤ L) :
    ∀ (evs : List (ℚ × ℚ)) (st : LookState), -L ≤ st.pitch → st.pitch ≤ L →
      -L ≤ (evs.foldl (fun s2 d => onMouseMove L sens true s2 d.1 d.2) st).pitch ∧
        (evs.foldl (fun s2 d => onMouseMove L sens true s2 d.1 d.2) st).pitch ≤ L := by
  intro evs
  induction evs with
  | nil => intro st h1 h2; exact ⟨h1, h2⟩
  | cons d ds ih =>
    intro st _ _
    have hb := onMouseMove_pitch_mem L sens hL st d.1 d.2
    exact ih (onMouseMove L sens true st d.1 d.2) hb.1 hb.2

/-- Claim C7: after any nonempty sequence of captured mouse-move events of
any magnitude, the pitch lies in the inclusive interval from
`-pitchLimit` to `pitchLimit` (for the source's nonnegative
`pitchLimit = π/2 - 0.1`), however large or repeated the deltas; while a
single event can set the yaw to any value whatsoever (yaw is unbounded). -/
theorem c7_pitch_clamped (L sens : ℚ) (hL : 0 ≤ L) (st : LookState)
    (e : ℚ × ℚ) (evs : List (ℚ × ℚ)) :
    (-L ≤ (evs.foldl (fun s2 d => onMouseMove L sens true s2 d.1 d.2)
        (onMouseMove L sens true st e.1 e.2)).pitch ∧
      (evs.foldl (fun s2 d => onMouseMove L sens true s2 d.1 d.2)
        (onMouseMove L sens true st e.1 e.2)).pitch ≤ L) ∧
      ∀ y : ℚ, sens ≠ 0 → ∃ dx : ℚ, (onMouseMove L sens true st dx 0).yaw = y := by
  constructor
  · have hb := onMouseMove_pitch_mem L sens hL st e.1 e.2
    exact lookFold_pitch L sens hL evs (onMouseMove L sens true st e.1 e.2) hb.1 hb.2
  · intro y hsens
    refine ⟨(st.yaw - y) / sens, ?_⟩
    unfold onMouseMove
    simp only [Bool.true_eq_false, if_false]
    rw [div_mul_cancel₀ _ hsens]
    ring

/-- Witness for C7 at `pitchLimit = 1`, `sensitivity = 1`, two large
deltas. -/
theorem c7_witness :
    (0 : ℚ) ≤ 1 ∧
      ((-(1 : ℚ) ≤ ([((-50 : ℚ), (-2000 : ℚ))].foldl
          (fun s2 d => onMouseMove 1 1 true s2 d.1 d.2)
          (onMouseMove 1 1 true ⟨0, 0⟩ 100 1000)).pitch ∧
        ([((-50 : ℚ), (-2000 : ℚ))].foldl
          (fun s2 d => onMouseMove 1 1 true s2 d.1 d.2)
          (onMouseMove 1 1 true ⟨0, 0⟩ 100 1000)).pitch ≤ 1) ∧
      ∀ y : ℚ, (1 : ℚ) ≠ 0 → ∃ dx : ℚ,
        (onMouseMove 1 1 true ⟨0, 0⟩ dx 0).yaw = y) :=
  ⟨zero_le_one, c7_pitch_clamped 1 1 zero_le_one ⟨0, 0⟩ (100, 1000) [(-50, -2000)]⟩

/-- Claim C8, amended: in the part_000/part_001 handler, while pointer
lock is not on the canvas, a mouse-move event of any magnitude leaves the
look state (yaw and pitch) exactly unchanged.  The App.jsx handler has no
such guard and drifts; see its counterexample. -/
theorem c8_no_capture_no_drift (L sens : ℚ) (st : LookState) (dx dy : ℚ) :
    onMouseMove L sens false st dx dy = st := by
  unfold onMouseMove
  simp

/-- Claim C8, counterexample: the App.jsx handler updates the look state
with no pointer-lock guard: a mouse-move delivered while capture is not
held still changes it — with the source's `sensitivity = 0.002`, a delta
of `(100, 0)` moves the yaw from `0` to `-0.2`. -/
theorem c8_appjsx_counterexample :
    AppJsx.onFPSMouseMove 1 0.002 false ⟨0, 0⟩ 100 0 ≠ ⟨0, 0⟩ := by
  intro h
  have hy : (AppJsx.onFPSMouseMove 1 0.002 false ⟨0, 0⟩ 100 0).yaw = 0 := by
    rw [h]
  unfold AppJsx.onFPSMouseMove at hy
  norm_num at hy

/-- Claim C4, amended: in the part_000/part_001 render loop, at every frame
and from every state, `updateTiles` is invoked iff the frame's floored tile
coordinate differs from the tracked last-streamed coordinate (unset at
startup, since the initial `updateTiles` call records nothing); when
invoked the coordinate is recorded, and when not invoked the whole state is
untouched.  The App.jsx variant instead invokes it every frame; see its
counterexample. -/
theorem c4_streaming_guarded (st : FrameSt) (pos : ℚ × ℚ) :
    ((Part000.frame st pos).2 = true ↔
        st.lastTile ≠ some (tileCoord Part000.tileSize pos)) ∧
      ((Part000.frame st pos).1.lastTile = some (tileCoord Part000.tileSize pos) ∧
          (Part000.frame st pos).2 = true ∨
        Part000.frame st pos = (st, false)) := by
  unfold Part000.frame
  by_cases h : some (tileCoord Part000.tileSize pos) ≠ st.lastTile
  · rw [if_pos h]
    have h' : st.lastTile ≠ some (tileCoord Part000.tileSize pos) := fun he => h he.symm
    exact ⟨by simp [h'], Or.inl ⟨rfl, rfl⟩⟩
  · rw [if_neg h]
    push_neg at h
    refine ⟨?_, Or.inr rfl⟩
    simp [← h]

/-- Claim C4, counterexample: in the App.jsx render loop, a second frame at
the same viewpoint position still invokes `updateTiles` even though the
floored tile coordinate is unchanged since the previous invocation — the
claimed equivalence "invoked iff the coordinate differs" is false there. -/
theorem c4_appjsx_counterexample :
    ¬ (((AppJsx.frame 6 (AppJsx.frame 6 ∅ (0, 0)).1 (0, 0)).2 = true) ↔
        some (tileCoord AppJsx.tileSize (0, 0)) ≠
          some (tileCoord AppJsx.tileSize (0, 0))) := by
  intro hiff
  exact hiff.mp rfl rfl

/-- Claim C10: pressing Tab before the model load completes faults in the
part_001 variant — its handler dereferences `characterModel` with no
load-completion guard (flipping the flag first, then throwing) — whereas
the guarded part_000 handler flips the camera-mode flag and touches no
model. -/
theorem c10_tab_unguarded_part001 (t : Bool) :
    (Part001.tabHandler none t).faulted = true ∧
      (Part001.tabHandler none t).isThirdPerson = !t ∧
      Part000.tabHandler none t = (!t, none) :=
  ⟨rfl, rfl, rfl⟩

/-- An event that is not a per-tile create/remove/dispose never occurs in
an `updateTiles` trace. -/
theorem Part000.updateTiles_count_other (tiles : Finset Coord) (cx cz : ℚ)
    (e : REvent) (h1 : ∀ k : Coord, e ≠ REvent.createTile k)
    (h2 : ∀ k : Coord, e ≠ REvent.removeMesh k)
    (h3 : ∀ k : Coord, e ≠ REvent.disposeGeometry k) :
    (Part000.updateTiles tiles cx cz).events.count e = 0 := by
  rw [Multiset.count_eq_zero]
  intro hmem
  simp only [Part000.updateTiles, Multiset.mem_add, Multiset.mem_map,
    Multiset.mem_bind, Multiset.insert_eq_cons, Multiset.mem_cons,
    Multiset.mem_singleton, Finset.mem_val] at hmem
  rcases hmem with ⟨a, -, ha⟩ | ⟨a, -, ha | ha⟩
  · exact h1 a ha.symm
  · exact h2 a ha
  · exact h3 a ha

/-- Across a whole run of `updateTiles` calls, an event that is not a
per-tile create/remove/dispose never occurs. -/
theorem Part000.runEvents_count_other (e : REvent)
    (h1 : ∀ k : Coord, e ≠ REvent.createTile k)
    (h2 : ∀ k : Coord, e ≠ REvent.removeMesh k)
    (h3 : ∀ k : Coord, e ≠ REvent.disposeGeometry k) :
    ∀ (calls : List (ℚ × ℚ)) (tiles : Finset Coord),
      (Part000.runEvents tiles calls).count e = 0 := by
  intro calls
  induction calls with
  | nil => intro tiles; simp [Part000.runEvents]
  | cons p ps ih =>
    intro tiles
    simp [Part000.runEvents, Multiset.count_add,
      Part000.updateTiles_count_other tiles p.1 p.2 e h1 h2 h3, ih]

/-- A geometry disposal appears in an `updateTiles` trace exactly for the
evicted keys. -/
theorem Part000.updateTiles_disposeGeometry_iff (tiles : Finset Coord)
    (cx cz : ℚ) (k : Coord) :
    REvent.disposeGeometry k ∈ (Part000.updateTiles tiles cx cz).events ↔
      k ∈ Part000.evictedKeys tiles cx cz := by
  simp only [Part000.updateTiles, Part000.evictedKeys, Multiset.mem_add,
    Multiset.mem_map, Multiset.mem_bind, Multiset.insert_eq_cons,
    Multiset.mem_cons, Multiset.mem_singleton, Finset.mem_val]
  constructor
  · rintro (⟨a, -, ha⟩ | ⟨a, hmem, ha | ha⟩)
    · exact REvent.noConfusion ha
    · exact REvent.noConfusion ha
    · obtain rfl : k = a := by injection ha
      exact hmem
  · intro hk
    exact Or.inr ⟨k, hk, Or.inr rfl⟩

/-- A scene removal appears in an `updateTiles` trace exactly for the
evicted keys. -/
theorem Part000.updateTiles_removeMesh_iff (tiles : Finset Coord)
    (cx cz : ℚ) (k : Coord) :
    REvent.removeMesh k ∈ (Part000.updateTiles tiles cx cz).events ↔
      k ∈ Part000.evictedKeys tiles cx cz := by
  simp only [Part000.updateTiles, Part000.evictedKeys, Multiset.mem_add,
    Multiset.mem_map, Multiset.mem_bind, Multiset.insert_eq_cons,
    Multiset.mem_cons, Multiset.mem_singleton, Finset.mem_val]
  constructor
  · rintro (⟨a, -, ha⟩ | ⟨a, hmem, ha | ha⟩)
    · exact REvent.noConfusion ha
    · obtain rfl : k = a := by injection ha
      exact hmem
    · exact REvent.noConfusion ha
  · intro hk
    exact Or.inr ⟨k, hk, Or.inl rfl⟩

/-- The cleanup trace disposes the shared material exactly once. -/
theorem Part000.cleanupEvents_count_material :
    (Part000.cleanupEvents : Multiset REvent).count REvent.disposeMaterial = 1 := by
  simp [Part000.cleanupEvents]

/-- The cleanup trace disposes the shared texture exactly once. -/
theorem Part000.cleanupEvents_count_texture :
    (Part000.cleanupEvents : Multiset REvent).count REvent.disposeTexture = 1 := by
  simp [Part000.cleanupEvents]

/-- Claim C9: an `updateTiles` call never disposes the shared material or
texture; it emits a scene removal and a geometry disposal exactly for the
evicted keys (that tile's geometry only); and over any whole run — any
sequence of `updateTiles` calls followed by `cleanup` — the shared material
and texture are each released exactly once, at cleanup. -/
theorem c9_shared_resources (tiles : Finset Coord) (cx cz : ℚ)
    (start : Finset Coord) (calls : List (ℚ × ℚ)) :
    (Part000.updateTiles tiles cx cz).events.count REvent.disposeMaterial = 0 ∧
      (Part000.updateTiles tiles cx cz).events.count REvent.disposeTexture = 0 ∧
      (∀ k : Coord,
        REvent.disposeGeometry k ∈ (Part000.updateTiles tiles cx cz).events ↔
          k ∈ Part000.evictedKeys tiles cx cz) ∧
      (∀ k : Coord,
        REvent.removeMesh k ∈ (Part000.updateTiles tiles cx cz).events ↔
          k ∈ Part000.evictedKeys tiles cx cz) ∧
      (Part000.runEvents start calls +
          (Part000.cleanupEvents : Multiset REvent)).count REvent.disposeMaterial = 1 ∧
      (Part000.runEvents start calls +
          (Part000.cleanupEvents : Multiset REvent)).count REvent.disposeTexture = 1 := by
  refine ⟨?_, ?_, ?_, ?_, ?_, ?_⟩
  · exact Part000.updateTiles_count_other tiles cx cz _
      (fun k h => REvent.noConfusion h) (fun k h => REvent.noConfusion h)
      (fun k h => REvent.noConfusion h)
  · exact Part000.updateTiles_count_other tiles cx cz _
      (fun k h => REvent.noConfusion h) (fun k h => REvent.noConfusion h)
      (fun k h => REvent.noConfusion h)
  · exact Part000.updateTiles_disposeGeometry_iff tiles cx cz
  · exact Part000.updateTiles_removeMesh_iff tiles cx cz
  · rw [Multiset.count_add,
      Part000.runEvents_count_other _
        (fun k h => REvent.noConfusion h) (fun k h => REvent.noConfusion h)
        (fun k h => REvent.noConfusion h) calls start,
      Part000.cleanupEvents_count_material]
  · rw [Multiset.count_add,
      Part000.runEvents_count_other _
        (fun k h => REvent.noConfusion h) (fun k h => REvent.noConfusion h)
        (fun k h => REvent.noConfusion h) calls start,
      Part000.cleanupEvents_count_texture]
